import Mathlib

/-!
Verification of the `oci-api-python` repository: a shallow embedding of the
parts of the code that the claims of the specification are about, together with
theorems settling each claim.

Conventions of the embedding:
* Python strings become `String`, Python `None`-able values become `Option`.
* Python dictionaries become association lists `List (String × α)` that keep
  insertion order (matching the ordered dicts of CPython); `dict[k] = v` replaces
  the first occurrence of the key in place or appends a fresh entry.
* Python exceptions become `Except PyErr`; an unhandled exception is an
  `Except.error`.  Attribute lookups on objects whose class does not define
  the attribute produce `PyErr.attributeError`.
* Byte files (tar archives, gzip blobs) become `List Nat`; the external
  hashing and compression tools are abstract function parameters, since the
  claims only relate their outputs structurally.
-/

/-- Python exception classes that appear in the modelled code paths. -/
inductive PyErr where
  | keyError (key : String)
  | typeError
  | attributeError (attr : String)
  | ociError
  | notImplementedError
  | layerUnknown
  | layerInUse
  | filesystemUnknown
  | filesystemInUse
  | imageUnknown
deriving DecidableEq

/-! ## `oci_api.util` string helpers -/

/-- Embedding of Python `str.split(sep)` for a one-character separator, on the
character list: splits on every occurrence, keeping empty segments (so
the split of an empty string is a list holding one empty string). -/
def splitCharAux (sep : Char) : List Char → List Char → List (List Char)
  | [], acc => [acc.reverse]
  | c :: rest, acc =>
    if c = sep then acc.reverse :: splitCharAux sep rest []
    else splitCharAux sep rest (c :: acc)

/-- Python `s.split(sep)` for a `String` and one-character separator. -/
def splitChar (sep : Char) (s : String) : List String :=
  (splitCharAux sep s.data []).map List.asString

/-- Python `s.split(':')`. -/
def splitColon (s : String) : List String :=
  splitChar ':' s

/-- Embedding of `oci_api.util.split_image_name`: one segment means the tag
defaults to `latest`, two segments are name and tag, anything else raises
`OCIError` complaining about an invalid image name. -/
def split_image_name (image_name : String) : Except PyErr (String × String) :=
  match splitColon image_name with
  | [name] => Except.ok (name, "latest")
  | [name, tag] => Except.ok (name, tag)
  | _ => Except.error PyErr.ociError

/-- Embedding of `oci_api.util.get_image_name`. -/
def get_image_name (repository tag : String) : String :=
  repository ++ ":" ++ tag

/-- Embedding of `oci_api.util.normalize_image_name`. -/
def normalize_image_name (image_name : String) : Except PyErr String := do
  let (repository, tag) ← split_image_name image_name
  return get_image_name repository tag

/-- Embedding of `oci_api.util.digest_to_id`: `digest.split(':')[1]`; on a
digest without a colon Python would raise `IndexError`, which never happens on
the digests the code builds, so the missing-index case maps to `""`. -/
def digest_to_id (digest : String) : String :=
  (splitColon digest).getD 1 ""

/-- Embedding of `oci_api.util.id_to_digest`. -/
def id_to_digest (id : String) : String :=
  "sha256:" ++ id

/-! ## Python `int(str)` and `oci_api.util.zfs.value_convert` (claim C8) -/

/-- Tail of a Python decimal `digitpart`: digits, with single underscores
allowed between digits (the CPython `int()` grammar). -/
def pyDigitTail : List Char → Bool
  | [] => true
  | [c] => c.isDigit
  | c :: d :: rest =>
    if c.isDigit then pyDigitTail (d :: rest)
    else if c = '_' then d.isDigit && pyDigitTail rest
    else false

/-- A Python decimal `digitpart`: nonempty, starts with a digit. -/
def pyDigitpart : List Char → Bool
  | [] => false
  | c :: rest => c.isDigit && pyDigitTail rest

/-- Numeric value of a digitpart, skipping the underscores. -/
def digitsVal (cs : List Char) : Int :=
  cs.foldl (fun acc c => if c = '_' then acc else 10 * acc + ((c.toNat : Int) - 48)) 0

/-- Strip leading and trailing whitespace, as Python `int()` does before
parsing. -/
def stripSpaces (cs : List Char) : List Char :=
  ((cs.dropWhile Char.isWhitespace).reverse.dropWhile Char.isWhitespace).reverse

/-- Embedding of Python `int(value)` on a decimal string: optional sign and a
digitpart after whitespace stripping; `none` models `ValueError`. -/
def pyInt (s : String) : Option Int :=
  match stripSpaces s.data with
  | [] => none
  | c :: rest =>
    if c = '+' then (if pyDigitpart rest then some (digitsVal rest) else none)
    else if c = '-' then (if pyDigitpart rest then some (-(digitsVal rest)) else none)
    else if pyDigitpart (c :: rest) then some (digitsVal (c :: rest))
    else none

/-- Python values returned by `value_convert`: `None`, a `bool`, an `int`, a
`pathlib.Path` (kept as its path string), or the raw string. -/
inductive PyVal where
  | none
  | bool (b : Bool)
  | int (n : Int)
  | path (p : String)
  | str (s : String)
deriving DecidableEq

/-- Embedding of `oci_api.util.zfs.value_convert` (zfs.py lines 85-97): the
checks run in source order — `on`, `off`, `-`, then the `mountpoint`
property name, then `int(value)` with fallback to the raw string. -/
def value_convert (property_name value : String) : PyVal :=
  if value = "on" then PyVal.bool true
  else if value = "off" then PyVal.bool false
  else if value = "-" then PyVal.none
  else if property_name = "mountpoint" then PyVal.path value
  else
    match pyInt value with
    | some n => PyVal.int n
    | Option.none => PyVal.str value

/-- Embedding of `oci_api.util.zfs.zfs_get` (zfs.py lines 99-108) given the
raw line the backend printed: `output.split('\t')[2]` is passed to
`value_convert`; a line with fewer than three fields would raise `IndexError`,
modelled by `Option.none`. -/
def zfs_get (property_name output : String) : Option PyVal :=
  ((splitChar '\t' output).get? 2).map (value_convert property_name)

/-! ## JSON documents

Python values that can end up inside a dict passed to `json.dump`.  The
`pymethod` constructor stands for a bound-method object (such as `layer.size`
in `Driver.layer_to_json`, since graph/layer.py defines `size` as a method,
not a property): `json.dump` raises `TypeError` on it. -/

inductive Json where
  | null
  | bool (b : Bool)
  | num (n : Int)
  | str (s : String)
  | pymethod (m : String)
  | arr (xs : List Json)
  | obj (fields : List (String × Json))

mutual

/-- Whether `json.dump` accepts the value (no bound-method objects inside). -/
def jsonSerializable : Json → Bool
  | Json.null => true
  | Json.bool _ => true
  | Json.num _ => true
  | Json.str _ => true
  | Json.pymethod _ => false
  | Json.arr xs => jsonListOk xs
  | Json.obj fs => jsonObjOk fs

def jsonListOk : List Json → Bool
  | [] => true
  | j :: t => jsonSerializable j && jsonListOk t

def jsonObjOk : List (String × Json) → Bool
  | [] => true
  | (_, j) :: t => jsonSerializable j && jsonObjOk t

end

/-! ## Ordered-dictionary helpers (CPython dict semantics) -/

/-- First value stored under a key. -/
def dictLookup (k : String) : List (String × α) → Option α
  | [] => none
  | (k', v) :: t => if k' = k then some v else dictLookup k t

/-- Embedding of `d[k] = v`: replace in place, keeping the position of the key, else append. -/
def dictInsert (k : String) (v : α) : List (String × α) → List (String × α)
  | [] => [(k, v)]
  | (k', v') :: t => if k' = k then (k', v) :: t else (k', v') :: dictInsert k v t

/-- Embedding of `del d[k]` (call sites check membership first). -/
def dictRemove (k : String) : List (String × α) → List (String × α)
  | [] => []
  | (k', v') :: t => if k' = k then t else (k', v') :: dictRemove k t

/-- Embedding of `k in d`. -/
def dictContains (k : String) (m : List (String × α)) : Bool :=
  (dictLookup k m).isSome

/-! ## The process-wide configuration `oci_api.oci_config` (claim C10) -/

/-- A Python nested-dict configuration value. -/
inductive Cfg where
  | str (s : String)
  | obj (fields : List (String × Cfg))

/-- Embedding of `cfg[key]`: `KeyError` when the key is absent. -/
def Cfg.get : Cfg → String → Except PyErr Cfg
  | Cfg.obj fields, key =>
    match dictLookup key fields with
    | some v => Except.ok v
    | none => Except.error (PyErr.keyError key)
  | Cfg.str _, _ => Except.error PyErr.typeError

/-- Top-level keys of a configuration dict. -/
def Cfg.topKeys : Cfg → List String
  | Cfg.obj fields => fields.map (·.1)
  | Cfg.str _ => []

/-- The default configuration shipped in `oci_api/__init__.py` (lines 17-30):
only the keys `global` and `graph`; the driver settings live *inside* the
`graph` section, and no top-level `driver` key exists. -/
def oci_config : Cfg :=
  Cfg.obj
    [("global", Cfg.obj
        [("path", Cfg.str "/var/lib/oci"),
         ("run_path", Cfg.str "/var/run/oci")]),
     ("graph", Cfg.obj
        [("driver", Cfg.str "zfs"),
         ("zfs", Cfg.obj
            [("filesystem", Cfg.str "rpool/oci"),
             ("compression", Cfg.str "lz4")])])]

/-- A configuration with the top-level `driver` section the graph code reads
(the `driver.type` and `driver.zfs.base` entries): the shape a
caller has to inject for any graph operation to run.  Used to study the graph
driver in isolation from claim C10. -/
def cfgZfs : Cfg :=
  Cfg.obj
    [("global", Cfg.obj
        [("path", Cfg.str "/var/lib/oci"),
         ("run_path", Cfg.str "/var/run/oci")]),
     ("driver", Cfg.obj
        [("type", Cfg.str "zfs"),
         ("zfs", Cfg.obj
            [("base", Cfg.str "rpool/oci"),
             ("compression", Cfg.str "lz4")])])]

/-- Embedding of `oci_api.graph.filesystem.get_filesystem_class` (lines
23-28): reads the `driver.type` entry of `oci_config`; returns the `ZFSFilesystem`
class (modelled as `Unit`) for `zfs`, raises `OCIError` otherwise. -/
def get_filesystem_class (cfg : Cfg) : Except PyErr Unit := do
  let driver_type ← (← cfg.get "driver").get "type"
  match driver_type with
  | Cfg.str "zfs" => return ()
  | _ => Except.error PyErr.ociError

/-! ## Graph driver data model (`oci_api.graph`) -/

/-- OCI descriptor as used by graph/layer.py (`digest`, `size`, `mediaType`). -/
structure Descriptor where
  digest : String
  size : Int
  mediaType : String
deriving DecidableEq

/-- Embedding of `descriptor.to_dict()` as embedded in driver.json. -/
def Descriptor.to_dict (d : Descriptor) : Json :=
  Json.obj
    [("mediaType", Json.str d.mediaType),
     ("digest", Json.str d.digest),
     ("size", Json.num d.size)]

/-- Embedding of `oci_api.graph.filesystem.Filesystem` (graph/filesystem.py lines 43-50):
`id`, optional back-reference to the parent `Layer` (kept as the layer id;
Python compares these references by object identity, which coincides with id
equality in driver states), and the id of the mounting container. -/
structure GFilesystem where
  id : String
  layer : Option String
  container_id : Option String
deriving DecidableEq

/-- Embedding of `filesystem.is_mounted()`. -/
def GFilesystem.is_mounted (fs : GFilesystem) : Bool :=
  fs.container_id.isSome

/-- Embedding of `oci_api.graph.layer.Layer` (graph/layer.py lines 58-62): descriptor, the
backing filesystem (kept as its id), and the image-id reference list. -/
structure GLayer where
  descriptor : Descriptor
  filesystem : String
  images : List String
deriving DecidableEq

/-- Embedding of `Layer.id` (graph/layer.py lines 64-66): the encoded part of the
descriptor digest, i.e. the hex after `sha256:`. -/
def GLayer.id (l : GLayer) : String :=
  digest_to_id l.descriptor.digest

/-- Embedding of `Layer.diff_id` (graph/layer.py lines 72-74): the property body evaluates
`self.filesystem.id` but has **no return statement**, so the Python property
returns `None` for every layer. -/
def GLayer.diff_id (_l : GLayer) : Option String :=
  none

/-- In-memory state of the `Driver` singleton: the `filesystems` and `layers`
dicts (driver.py lines 49-50). -/
structure DriverState where
  filesystems : List (String × GFilesystem)
  layers : List (String × GLayer)
deriving DecidableEq

/-- Embedding of `Driver.get_child_layer` (driver.py lines 209-213): first layer whose
`filesystem` is this filesystem; `None` for a temp filesystem. -/
def Driver.get_child_layer (st : DriverState) (fs : GFilesystem) : Option GLayer :=
  go st.layers
where
  go : List (String × GLayer) → Option GLayer
    | [] => none
    | (_, l) :: t => if l.filesystem = fs.id then some l else go t

/-- Embedding of `Driver.get_child_filesystems` (driver.py lines 147-152): all filesystems
whose parent `layer` is this layer. -/
def Driver.get_child_filesystems (st : DriverState) (l : GLayer) : List GFilesystem :=
  (st.filesystems.filter (fun e => e.2.layer == some l.id)).map (·.2)

/-! ## Persistence: `Driver.save` and `Driver.load` (claim C1) -/

/-- Render an `Option String` the way `json.dump` renders the Python value. -/
def optStrJson : Option String → Json
  | some s => Json.str s
  | none => Json.null

mutual

/-- Embedding of `Driver.filesystem_to_json` (driver.py lines 114-121).  The `fuel`
argument bounds the recursion depth through the parent/child graph; it is
chosen larger than the number of registered objects, so it never runs out on
the acyclic states the driver builds. -/
def Driver.filesystem_to_json : Nat → DriverState → GFilesystem → Json
  | 0, _, _ => Json.null
  | Nat.succ fuel, st, fs =>
    let base :=
      ("id", Json.str fs.id) ::
        (match fs.container_id with
         | some c => [("container_id", Json.str c)]
         | none => [])
    match Driver.get_child_layer st fs with
    | some l => Json.obj (base ++ [("layer", Driver.layer_to_json fuel st l)])
    | none => Json.obj base

/-- Embedding of `Driver.layer_to_json` (driver.py lines 123-134).  Note two direct
consequences of graph/layer.py: `layer.diff_id` is the broken property that
returns `None` (so the emitted value is JSON `null`), and `layer.size` is a
*bound method* — graph/layer.py defines `def size(self)` — so the dict holds
a method object that `json.dump` cannot serialise. -/
def Driver.layer_to_json : Nat → DriverState → GLayer → Json
  | 0, _, _ => Json.null
  | Nat.succ fuel, st, l =>
    let fields :=
      [("descriptor", l.descriptor.to_dict),
       ("diff_id", optStrJson (GLayer.diff_id l)),
       ("size", Json.pymethod "Layer.size")]
    let fields := fields ++
      (if l.images.length > 0 then [("images", Json.arr (l.images.map Json.str))] else [])
    let children := Driver.get_child_filesystems st l
    let fields := fields ++
      (if children.length > 0
       then [("filesystems", Json.arr (children.map (Driver.filesystem_to_json fuel st)))]
       else [])
    Json.obj fields

end

/-- Depth bound for the serialisation walk: more than every object count. -/
def Driver.saveFuel (st : DriverState) : Nat :=
  st.filesystems.length + st.layers.length + 1

/-- Embedding of `Driver.save` (driver.py lines 93-112), returning the document handed to
`json.dump`.  The Python evaluation order: read the `global.path` config entry,
build `filesystems_json` from the root filesystems (those whose `layer` is
`None`), then build the dict literal — whose first value reads the
`driver.type` config entry, raising `KeyError` under the shipped
configuration — and finally `json.dump`, which raises `TypeError` if a bound
method leaked into the document.  (The `mkdir(filesystems=True)` call on line
105 is skipped when the state directory exists, the normal case modelled
here.) -/
def Driver.save (cfg : Cfg) (st : DriverState) : Except PyErr Json := do
  let _ ← (← cfg.get "global").get "path"
  let roots := (st.filesystems.filter (fun e => e.2.layer == none)).map (·.2)
  let filesystems_json := roots.map (Driver.filesystem_to_json (Driver.saveFuel st) st)
  let t ← (← cfg.get "driver").get "type"
  let tstr ← match t with
    | Cfg.str s => Except.ok s
    | Cfg.obj _ => Except.error PyErr.typeError
  let doc := Json.obj [("type", Json.str tstr), ("filesystems", Json.arr filesystems_json)]
  if jsonSerializable doc then
    return doc
  else
    Except.error PyErr.typeError

/-- Embedding of `json_obj[key]`: `KeyError` when absent, `TypeError` when not a dict. -/
def Json.getKey (j : Json) (k : String) : Except PyErr Json :=
  match j with
  | Json.obj fields =>
    match dictLookup k fields with
    | some v => Except.ok v
    | none => Except.error (PyErr.keyError k)
  | _ => Except.error PyErr.typeError

/-- Embedding of `json_obj.get(key)` / `json_obj.get(key, None)`. -/
def Json.getOpt (j : Json) (k : String) : Option Json :=
  match j with
  | Json.obj fields => dictLookup k fields
  | _ => none

/-- Read a JSON string where the code expects one. -/
def Json.asStr : Json → Except PyErr String
  | Json.str s => Except.ok s
  | _ => Except.error PyErr.typeError

/-- Embedding of `Descriptor.from_json` (the `oci_spec` helper used on driver.py line 83):
reads the three descriptor fields back. -/
def Descriptor.from_json (j : Json) : Except PyErr Descriptor := do
  let digest ← (← j.getKey "digest").asStr
  let size ← match ← j.getKey "size" with
    | Json.num n => Except.ok n
    | _ => Except.error PyErr.typeError
  let mediaType ← (← j.getKey "mediaType").asStr
  return { digest := digest, size := size, mediaType := mediaType }

/-- Embedding of `Driver.load_layer` (driver.py lines 82-91).  After computing the
descriptor, `diff_id`, `size` and `images` locals, line 88 executes
`Layer(layer_descriptor, diff_id, filesystem, size, images)` — five positional
arguments — while `Layer.__init__` (graph/layer.py line 58) accepts only
`(self, descriptor, filesystem, images)`.  Python raises `TypeError` before
the constructor body runs, so the registration and the recursion into child
filesystems below line 88 are unreachable and not modelled. -/
def Driver.load_layer (layer_json : Json) : Except PyErr GLayer := do
  let _descriptor ← Descriptor.from_json (← layer_json.getKey "descriptor")
  let _diff_id ← layer_json.getKey "diff_id"
  let _size ← layer_json.getKey "size"
  let _images := layer_json.getOpt "images"
  Except.error PyErr.typeError

/-- Embedding of `Driver.load_filesystem` (driver.py lines 72-80): build the `Filesystem`
(three positional arguments — this constructor call is well-formed), recurse
into the nested layer record *before* inserting the filesystem into the map. -/
def Driver.load_filesystem (st : DriverState) (filesystem_json : Json)
    (layer : Option String) : Except PyErr DriverState := do
  let filesystem_id ← (← filesystem_json.getKey "id").asStr
  let container_id :=
    match filesystem_json.getOpt "container_id" with
    | some (Json.str c) => some c
    | _ => none
  let filesystem : GFilesystem :=
    { id := filesystem_id, layer := layer, container_id := container_id }
  match filesystem_json.getOpt "layer" with
  | some layer_json => do
    let _ ← Driver.load_layer layer_json
    return { st with filesystems := dictInsert filesystem_id filesystem st.filesystems }
  | none =>
    return { st with filesystems := dictInsert filesystem_id filesystem st.filesystems }

/-- Embedding of `Driver.load` (driver.py lines 53-70) applied to the parsed driver.json
document: read the `global.path` config entry, compare the `driver.type`
config entry (the left operand of the `!=` on line 63 — a `KeyError` under
the shipped configuration) with the `type` field of the document, then
load every root filesystem record. -/
def Driver.load (cfg : Cfg) (driver_json : Json) : Except PyErr DriverState := do
  let _ ← (← cfg.get "global").get "path"
  let t ← (← cfg.get "driver").get "type"
  let tdoc ← driver_json.getKey "type"
  let tequal : Bool :=
    match t, tdoc with
    | Cfg.str a, Json.str b => a = b
    | _, _ => false
  if tequal then do
    let records ← match driver_json.getOpt "filesystems" with
      | some (Json.arr xs) => Except.ok xs
      | some _ => Except.error PyErr.typeError
      | none => Except.ok ([] : List Json)
    records.foldlM (fun s r => Driver.load_filesystem s r none)
      ({ filesystems := [], layers := [] } : DriverState)
  else
    Except.error PyErr.notImplementedError

/-! ## Layer creation (`Layer.create`, claim C2) -/

/-- The OCI media type used for compressed layers. -/
def MediaTypeImageLayerGzip : String :=
  "application/vnd.oci.image.layer.v1.tar+gzip"

/-- Embedding of `ZFSFilesystem.commit` (zfs_filesystem.py lines 93-102): snapshot the
dataset, write the changeset tar, hash it, unset the mountpoint, and *return*
the hash.  The filesystem object is not renamed and its `id` is not rebound —
the computed `diff_id` exists only in the return value. -/
def Filesystem.commit (sha256sum : List Nat → String) (fs : GFilesystem)
    (changeset : List Nat) : String × GFilesystem :=
  (sha256sum changeset, fs)

/-- Embedding of `Layer.create` (graph/layer.py lines 26-56) with the default
`compressed=True`: commit the filesystem — graph/layer.py line 32 discards
the returned hash — take `layer_id = filesystem.id`, compress the changeset,
re-hash the compressed blob into `layer_id`, store the blob, and build the
descriptor from `sha256:<layer_id>` and the blob size.  The external
`sha256sum` and `compress` tools and the changeset bytes are abstract
parameters. -/
def Layer.create (sha256sum : List Nat → String) (compressTool : List Nat → List Nat)
    (fs : GFilesystem) (changeset : List Nat) : GLayer × GFilesystem :=
  let (_diff_id, fs1) := Filesystem.commit sha256sum fs changeset
  let _layer_id := fs1.id
  let blob := compressTool changeset
  let layer_id := sha256sum blob
  let descriptor : Descriptor :=
    { digest := id_to_digest layer_id,
      size := (blob.length : Int),
      mediaType := MediaTypeImageLayerGzip }
  ({ descriptor := descriptor, filesystem := fs1.id, images := [] }, fs1)

/-! ## Graph driver operations (claims C3 and C5)

Each operation returns the in-memory state after the call together with the
exception it raised, if any: Python mutates the dicts of the singleton in
place, so mutations that happen *before* an exception survive it.  The failure
modes of `Driver.save` are studied separately (claims C1 and C10); the interpreter
tracks the in-memory registries only. -/

/-- Embedding of `Driver.get_filesystem_by_container_id` (driver.py lines 141-145). -/
def Driver.get_filesystem_by_container_id (st : DriverState)
    (container_id : String) : Option GFilesystem :=
  go st.filesystems
where
  go : List (String × GFilesystem) → Option GFilesystem
    | [] => none
    | (_, fs) :: t => if fs.container_id = some container_id then some fs else go t

/-- Embedding of `Driver.create_filesystem` (driver.py lines 154-162) with
`ZFSFilesystem.create` (zfs_filesystem.py lines 44-64): check the parent
layer is registered, then register a fresh filesystem with the generated
random id, the parent layer back-reference and no mounting container. -/
def Driver.create_filesystem (st : DriverState) (new_id : String)
    (layer : Option String) : DriverState × Option PyErr :=
  let fs : GFilesystem := { id := new_id, layer := layer, container_id := none }
  match layer with
  | some lid =>
    if !(dictContains lid st.layers) then (st, some PyErr.layerUnknown)
    else
      ({ st with filesystems := dictInsert new_id fs st.filesystems }, none)
  | none =>
    ({ st with filesystems := dictInsert new_id fs st.filesystems }, none)

/-- Embedding of `ZFSFilesystem.mount` (zfs_filesystem.py lines 146-158): an unmounted
filesystem records the container id; re-mounting for the *same* container is
a warning (and possibly an `OCIError` about the recorded path — either way
the recorded container does not change, so the no-mutation outcome is
modelled); a filesystem mounted for a *different* container raises
`OCIError`.  No check against the other registered filesystems is made. -/
def Filesystem.mount (fs : GFilesystem) (container_id : String) :
    GFilesystem × Option PyErr :=
  match fs.container_id with
  | some c =>
    if c = container_id then (fs, none)
    else (fs, some PyErr.ociError)
  | none => ({ fs with container_id := some container_id }, none)

/-- Embedding of `Driver.mount_filesystem` (driver.py lines 164-171). -/
def Driver.mount_filesystem (st : DriverState) (filesystem_id container_id : String) :
    DriverState × Option PyErr :=
  match dictLookup filesystem_id st.filesystems with
  | none => (st, some PyErr.filesystemUnknown)
  | some fs =>
    let r := Filesystem.mount fs container_id
    ({ st with filesystems := dictInsert filesystem_id r.1 st.filesystems }, r.2)

/-- Embedding of `Driver.remove_filesystem` (driver.py lines 182-194): unknown, mounted or
parent-of-a-layer filesystems are rejected, otherwise the filesystem is
destroyed and deleted from the map. -/
def Driver.remove_filesystem (st : DriverState) (filesystem_id : String) :
    DriverState × Option PyErr :=
  match dictLookup filesystem_id st.filesystems with
  | none => (st, some PyErr.filesystemUnknown)
  | some fs =>
    if fs.is_mounted || (Driver.get_child_layer st fs).isSome then
      (st, some PyErr.filesystemInUse)
    else
      ({ st with filesystems := dictRemove filesystem_id st.filesystems }, none)

/-- Embedding of `Driver.unmount_filesystem` (driver.py lines 173-180): find the
filesystem mounted for this container (first match), clear its container id
(the two error branches of `ZFSFilesystem.unmount` cannot fire for the
filesystem just selected by container id), then optionally remove it. -/
def Driver.unmount_filesystem (st : DriverState) (container_id : String)
    (remove : Bool) : DriverState × Option PyErr :=
  match Driver.get_filesystem_by_container_id st container_id with
  | none => (st, some PyErr.filesystemUnknown)
  | some fs =>
    let fs1 : GFilesystem := { fs with container_id := none }
    let st1 : DriverState :=
      { st with filesystems := dictInsert fs.id fs1 st.filesystems }
    if remove then Driver.remove_filesystem st1 fs1.id
    else (st1, none)

/-- Embedding of `Driver.create_layer` (driver.py lines 215-225): check the filesystem is
registered, run `Layer.create` (the committed filesystem keeps its id, see
`Filesystem.commit`), then register the layer under `layer.id` and re-insert
the filesystem under its unchanged id.  `blob_id` abstracts the SHA-256 of
the compressed changeset. -/
def Driver.create_layer (st : DriverState) (filesystem_id blob_id : String)
    (blob_size : Int) : DriverState × Option PyErr :=
  match dictLookup filesystem_id st.filesystems with
  | none => (st, some PyErr.filesystemUnknown)
  | some fs =>
    let layer : GLayer :=
      { descriptor :=
          { digest := id_to_digest blob_id,
            size := blob_size,
            mediaType := MediaTypeImageLayerGzip },
        filesystem := fs.id,
        images := [] }
    ({ st with
        layers := dictInsert (GLayer.id layer) layer st.layers,
        filesystems := dictInsert fs.id fs st.filesystems }, none)

/-- Embedding of `Driver.remove_layer` (driver.py lines 227-243): reject unknown layers;
raise `LayerInUse` when `layer.images` is non-empty or some filesystem has
this layer as parent; otherwise destroy the blob of the layer, delete the layer
from the map, and only then remove the backing filesystem — whose failure
(e.g. `FilesystemInUse` when that filesystem is mounted) propagates *after*
the layer is already gone from the map. -/
def Driver.remove_layer (st : DriverState) (layer_id : String) :
    DriverState × Option PyErr :=
  match dictLookup layer_id st.layers with
  | none => (st, some PyErr.layerUnknown)
  | some layer =>
    if layer.images.length > 0 then (st, some PyErr.layerInUse)
    else if (Driver.get_child_filesystems st layer).length > 0 then
      (st, some PyErr.layerInUse)
    else
      let st1 : DriverState := { st with layers := dictRemove layer_id st.layers }
      Driver.remove_filesystem st1 layer.filesystem

/-- The public mutating entry points of the graph driver. -/
inductive DriverOp where
  | create_filesystem (new_id : String) (layer : Option String)
  | mount_filesystem (filesystem_id container_id path : String)
  | unmount_filesystem (container_id : String) (remove : Bool)
  | remove_filesystem (filesystem_id : String)
  | create_layer (filesystem_id blob_id : String) (blob_size : Int)
  | remove_layer (layer_id : String)

/-- One driver call: resulting in-memory state and raised exception, if any.
The mount path only feeds the abstract `zfs set mountpoint` call. -/
def Driver.applyOp (st : DriverState) : DriverOp → DriverState × Option PyErr
  | DriverOp.create_filesystem new_id layer => Driver.create_filesystem st new_id layer
  | DriverOp.mount_filesystem filesystem_id container_id _path =>
      Driver.mount_filesystem st filesystem_id container_id
  | DriverOp.unmount_filesystem container_id remove =>
      Driver.unmount_filesystem st container_id remove
  | DriverOp.remove_filesystem filesystem_id => Driver.remove_filesystem st filesystem_id
  | DriverOp.create_layer filesystem_id blob_id blob_size =>
      Driver.create_layer st filesystem_id blob_id blob_size
  | DriverOp.remove_layer layer_id => Driver.remove_layer st layer_id

/-- Run a sequence of driver calls, tracking the in-memory state across both
successful and failing calls (the singleton keeps its dicts either way). -/
def Driver.runOps (st : DriverState) : List DriverOp → DriverState
  | [] => st
  | op :: ops => Driver.runOps (Driver.applyOp st op).1 ops

/-- The empty state `Driver.create` initialises (driver.py lines 49-50). -/
def DriverState.empty : DriverState :=
  { filesystems := [], layers := [] }

/-! ## Distribution and the `Image` class (claims C4, C6, C7)

`distribution.py` calls an `Image` API (`tags`, `add_tag`, `remove_tag`,
`destroy`, a constructor `Image(image_id, tags)`) that the `Image` class in
`image/image.py` does not provide: its attributes and methods are enumerated
below straight from the class body, and every attribute lookup is resolved
against those lists, so missing ones raise `AttributeError` exactly as
CPython would. -/

/-- The attributes `Image.__init__` (image/image.py lines 33-41) sets on
every instance. -/
def Image.instanceAttrs : List String :=
  ["repository", "tag", "id", "manifest", "layers", "history", "config"]

/-- The methods and properties defined in `class Image`
(image/image.py lines 32-324). -/
def Image.classAttrs : List String :=
  ["small_id", "name", "digest", "top_layer", "size", "virtual_size",
   "copy", "load", "load_manifest", "copy_manifest", "load_config",
   "copy_config", "load_layers", "save_manifest", "save_config",
   "create", "create_manifest", "create_layer", "add_new_history",
   "create_root_fs", "create_config", "remove", "remove_manifest",
   "remove_layers", "remove_config", "export"]

/-- Whether an attribute lookup on an `Image` instance succeeds. -/
def Image.hasAttr (name : String) : Bool :=
  Image.instanceAttrs.contains name || Image.classAttrs.contains name

/-- Calling `image.<name>(…)`: `AttributeError` when the class defines no
such method (the lookup fails before any call happens). -/
def Image.callMethod (name : String) : Except PyErr Unit :=
  if Image.hasAttr name then Except.ok ()
  else Except.error (PyErr.attributeError name)

/-- The object `Distribution.load` (distribution.py lines 48-53) builds for
each persisted record: `Image(image_id, tags)` binds the image id to the
`repository` parameter and the tag list to the `tag` parameter of
`Image.__init__(self, repository, tag)` (image/image.py line 33), which then
sets `self.id = None`.  The remaining attributes start as `None` and play no
role here. -/
structure DistImage where
  repository : String
  tag : List String
  id : Option String
deriving DecidableEq

/-- Reading `image.tags`: `class Image` defines no `tags` attribute anywhere
(`Image.hasAttr "tags"` is false), so the lookup raises `AttributeError`; the
`ok` branch is vacuous. -/
def Image.getTags (_img : DistImage) : Except PyErr (List String) :=
  if Image.hasAttr "tags" then Except.ok []
  else Except.error (PyErr.attributeError "tags")

/-- Embedding of `Image.small_id` (image/image.py lines 43-46): first 12 characters of the
id, or `None` when the image has no id. -/
def DistImage.small_id (img : DistImage) : Option String :=
  img.id.map (fun s => List.asString (s.data.take 12))

/-- Constructor call made by `Distribution.load`, for building concrete states. -/
def DistImage.loaded (image_id : String) (tags : List String) : DistImage :=
  { repository := image_id, tag := tags, id := none }

/-- Embedding of `Distribution.get_image_by_id` (distribution.py lines 97-103): walk the
registry in insertion order, matching the `id` of each image then its `small_id`
against the reference; raise `ImageUnknown` when nothing matches. -/
def Distribution.get_image_by_id :
    List (String × DistImage) → String → Except PyErr DistImage
  | [], _ => Except.error PyErr.imageUnknown
  | (_, img) :: t, image_id =>
    if img.id = some image_id then Except.ok img
    else if DistImage.small_id img = some image_id then Except.ok img
    else Distribution.get_image_by_id t image_id

/-- The tag-matching loop of `Distribution.get_image` (distribution.py lines
115-117): `if image_name in image.tags` reads the non-existent `tags`
attribute, so with a non-empty registry the loop raises `AttributeError`. -/
def Distribution.tagSearch :
    List (String × DistImage) → String → Except PyErr DistImage
  | [], _ => Except.error PyErr.imageUnknown
  | (_, img) :: t, image_name => do
    let tags ← Image.getTags img
    if tags.contains image_name then Except.ok img
    else Distribution.tagSearch t image_name

/-- Embedding of `Distribution.get_image` (distribution.py lines 105-118): try id / short
id resolution; only `ImageUnknown` is caught, after which the reference is
normalised (`OCIError` for malformed names propagates) and the tag loop
runs. -/
def Distribution.get_image (images : List (String × DistImage))
    (image_ref : String) : Except PyErr DistImage :=
  match Distribution.get_image_by_id images image_ref with
  | Except.ok img => Except.ok img
  | Except.error PyErr.imageUnknown => do
    let image_name ← normalize_image_name image_ref
    Distribution.tagSearch images image_name
  | Except.error e => Except.error e

/-- Embedding of `Distribution.add_tag` (distribution.py lines 140-152): normalise the
tag; look up its current owner; when another image owns it, call
`remove_tag` on that image and `add_tag` on this one — both resolve to
`AttributeError` because `class Image` defines neither; when nobody owns the
tag (`ImageUnknown` caught), `image.add_tag` likewise raises.  No reachable
path mutates or persists anything, so the returned registry is unchanged. -/
def Distribution.add_tag (images : List (String × DistImage))
    (img : DistImage) (tag : String) :
    Except PyErr (List (String × DistImage)) := do
  let normalized_tag ← normalize_image_name tag
  match Distribution.get_image images normalized_tag with
  | Except.ok other_image =>
    if other_image ≠ img then do
      let _ ← Image.callMethod "remove_tag"
      let _ ← Image.callMethod "add_tag"
      return images
    else
      return images
  | Except.error PyErr.imageUnknown => do
    let _ ← Image.callMethod "add_tag"
    return images
  | Except.error e => Except.error e

/-- Embedding of `Distribution.remove_image` (distribution.py lines 128-138): read
`image.id` (line 129) — `None` for every image built by `Distribution.load`,
and `None` is not among the string keys of the registry, so line 133 raises
`ImageUnknown`; for an image that does carry its id, line 135 calls
`image.destroy()`, a method `class Image` does not define, raising
`AttributeError` before the registry is touched. -/
def Distribution.remove_image (images : List (String × DistImage))
    (img : DistImage) : Except PyErr (List (String × DistImage)) :=
  match img.id with
  | none => Except.error PyErr.imageUnknown
  | some image_id =>
    if !(dictContains image_id images) then Except.error PyErr.imageUnknown
    else do
      let _ ← Image.callMethod "destroy"
      return dictRemove image_id images

/-! ## `Container.start` (claim C9) -/

/-- The OCI runtime `State` document (id, status, bundle path). -/
structure RuncState where
  id : String
  status : String
  bundle : String
deriving DecidableEq

/-- A `Container` as far as `start` reads it: its id, `runc_id`, and the
state file the external runtime may have written for it. -/
structure PyContainer where
  id : Option String
  runc_id : String
  state_file : Option RuncState
deriving DecidableEq

/-- Embedding of `Container.state` (container.py lines 64-76): `None` without an id;
otherwise the parsed state file, or a synthesised `exited` state. -/
def Container.state (c : PyContainer) : Option RuncState :=
  match c.id with
  | none => none
  | some cid =>
    match c.state_file with
    | some st => some st
    | none =>
      some { id := c.runc_id, status := "exited",
             bundle := "/var/lib/oci/containers/" ++ cid }

/-- Python `==` between the value `state()` returned — a `State` *object* or
`None` — and a string literal: neither `State` nor `str` defines cross-type
equality, so the comparison is always `False`, whatever the status says. -/
def stateEqStr (_s : Option RuncState) (_t : String) : Bool :=
  false

/-- Invocations of the external runtime binary. -/
inductive RuncCall where
  | start (container_id : String)
deriving DecidableEq

/-- Embedding of `Container.start` (container.py lines 254-259): compare the *state
object* with the strings `created` and `stopped` — and `raise` on a
match, `runc start` otherwise.  (Both branches contradict the spec: the
comparison can never be true, and even its intent is inverted — the error
message is about states one "can not start" from, yet `created`/`stopped`
are exactly the startable ones.) -/
def Container.start (c : PyContainer) : Except PyErr RuncCall :=
  let container_state := Container.state c
  if stateEqStr container_state "created" || stateEqStr container_state "stopped" then
    Except.error PyErr.ociError
  else
    Except.ok (RuncCall.start c.runc_id)

/-! ## Mount-uniqueness machinery and helper lemmas (claims C3 and C5) -/

def cIds (m : List (String × GFilesystem)) : List String :=
  m.filterMap (fun e => e.2.container_id)

def DriverState.containerIds (st : DriverState) : List String :=
  cIds st.filesystems

def MountUnique (st : DriverState) : Prop :=
  st.containerIds.Nodup

def WellKeyed (st : DriverState) : Prop :=
  ∀ e ∈ st.filesystems, e.2.id = e.1

def mountOpFresh (st : DriverState) : DriverOp → Prop
  | DriverOp.mount_filesystem _ container_id _ => container_id ∉ st.containerIds
  | _ => True

inductive MountsFresh : DriverState → List DriverOp → Prop where
  | nil (st : DriverState) : MountsFresh st []
  | cons (st : DriverState) (op : DriverOp) (ops : List DriverOp)
      (hop : mountOpFresh st op)
      (hrest : MountsFresh (Driver.applyOp st op).1 ops) :
      MountsFresh st (op :: ops)

instance (st : DriverState) (op : DriverOp) : Decidable (mountOpFresh st op) := by
  unfold mountOpFresh
  cases op <;> infer_instance

/-! ## Concrete states used by the claim theorems -/

/-- A layer as `Driver.create_layer` would register it: digest of the
compressed blob, backing filesystem `f0`, no image references. -/
def layC1 : GLayer :=
  ⟨⟨"sha256:b1f2", 5, MediaTypeImageLayerGzip⟩, "f0", []⟩

/-- A driver state holding one root filesystem committed into one layer — the
shape reached by `create_filesystem` followed by `create_layer`. -/
def stC1 : DriverState :=
  { filesystems := [("f0", ⟨"f0", none, none⟩)], layers := [("b1f2", layC1)] }

/-- A driver.json document in the persistent form the specification gives
(section 4.2): one root filesystem with a nested layer record carrying
`descriptor`, `diff_id` and `size`. -/
def docC1 : Json :=
  Json.obj
    [("type", Json.str "zfs"),
     ("filesystems", Json.arr
       [Json.obj
         [("id", Json.str "f0"),
          ("layer", Json.obj
            [("descriptor", Json.obj
               [("mediaType", Json.str MediaTypeImageLayerGzip),
                ("digest", Json.str "sha256:b1f2"),
                ("size", Json.num 5)]),
             ("diff_id", Json.str "d3ad"),
             ("size", Json.num 5)])]])]

/-- A layer with no image references whose backing filesystem is mounted. -/
def layC3 : GLayer :=
  ⟨⟨"sha256:l1aa", 7, MediaTypeImageLayerGzip⟩, "f1", []⟩

/-- State where the backing filesystem `f1` of `layC3` is mounted for
container `c9` (reachable: create_filesystem, create_layer, then
mount_filesystem, which never checks whether the filesystem is committed). -/
def stC3 : DriverState :=
  { filesystems := [("f1", ⟨"f1", none, some "c9"⟩)], layers := [("l1aa", layC3)] }

/-- A removable layer: no images, no children, backing filesystem unmounted. -/
def layW3 : GLayer :=
  ⟨⟨"sha256:l2aa", 3, MediaTypeImageLayerGzip⟩, "f2", []⟩

/-- State where `layW3` satisfies every removal precondition. -/
def stW3 : DriverState :=
  { filesystems := [("f2", ⟨"f2", none, none⟩)], layers := [("l2aa", layW3)] }

/-- An image id (sha256 hex digest). -/
def kC4 : String :=
  "9aafb1e6a0a07ef5797a05e5d9cdb84dd0e93e1b1c2286e53cd2f3fe9ab34f55"

/-- A distribution registry with one image, as `Distribution.load` builds it. -/
def distC4 : List (String × DistImage) :=
  [(kC4, DistImage.loaded kC4 ["busybox:latest"])]

/-- Driver-call sequence that mounts two filesystems for one container id. -/
def opsC5 : List DriverOp :=
  [DriverOp.create_filesystem "f1" none,
   DriverOp.create_filesystem "f2" none,
   DriverOp.mount_filesystem "f1" "c7" "/var/lib/oci/containers/c7/rootfs",
   DriverOp.mount_filesystem "f2" "c7" "/var/lib/oci/containers/c7b/rootfs"]

/-- A well-behaved call sequence: every mount uses a fresh container id. -/
def wopsC5 : List DriverOp :=
  [DriverOp.create_filesystem "f1" none,
   DriverOp.mount_filesystem "f1" "c1" "/a",
   DriverOp.create_filesystem "f2" none,
   DriverOp.mount_filesystem "f2" "c2" "/b",
   DriverOp.unmount_filesystem "c1" true]

/-- Registry with two loaded images; the first carries the tag `x:latest` in
its persisted record. -/
def distC6 : List (String × DistImage) :=
  [("k1", DistImage.loaded "k1" ["x:latest"]), ("k2", DistImage.loaded "k2" [])]

/-- An image id whose short id is its first 12 hex characters. -/
def kC7 : String :=
  "0123456789abcdef0123456789abcdef0123456789abcdef0123456789abcdef"

/-- Registry with one image stored under its id with one tag. -/
def distC7 : List (String × DistImage) :=
  [(kC7, DistImage.loaded kC7 ["busybox:latest"])]


/-! ## Helper lemmas -/

theorem cIds_nil : cIds [] = [] := rfl

theorem cIds_cons_none {e : String × GFilesystem} {t : List (String × GFilesystem)}
    (he : e.2.container_id = none) : cIds (e :: t) = cIds t := by
  simp [cIds, List.filterMap_cons, he]

theorem cIds_cons_some {e : String × GFilesystem} {t : List (String × GFilesystem)}
    {c : String} (he : e.2.container_id = some c) : cIds (e :: t) = c :: cIds t := by
  simp [cIds, List.filterMap_cons, he]

theorem mem_cIds_dictInsert {m : List (String × GFilesystem)} {k : String}
    {v : GFilesystem} {x : String} (h : x ∈ cIds (dictInsert k v m)) :
    x ∈ cIds m ∨ v.container_id = some x := by
  induction m with
  | nil =>
    rw [show dictInsert k v [] = [(k, v)] from rfl] at h
    cases hv : v.container_id with
    | none => rw [cIds_cons_none hv, cIds_nil] at h; exact absurd h (List.not_mem_nil x)
    | some c =>
      rw [cIds_cons_some hv, cIds_nil] at h
      have hx : x = c := by simpa using h
      subst hx
      exact Or.inr rfl
  | cons e t ih =>
    by_cases hk : e.1 = k
    · have hins : dictInsert k v (e :: t) = (e.1, v) :: t := by simp [dictInsert, hk]
      rw [hins] at h
      cases hv : v.container_id with
      | none =>
        rw [cIds_cons_none hv] at h
        left
        cases he : e.2.container_id with
        | none => rw [cIds_cons_none he]; exact h
        | some d => rw [cIds_cons_some he]; exact List.mem_cons_of_mem _ h
      | some c =>
        rw [cIds_cons_some hv] at h
        rcases List.mem_cons.mp h with rfl | hmem
        · exact Or.inr rfl
        · left
          cases he : e.2.container_id with
          | none => rw [cIds_cons_none he]; exact hmem
          | some d => rw [cIds_cons_some he]; exact List.mem_cons_of_mem _ hmem
    · have hins : dictInsert k v (e :: t) = e :: dictInsert k v t := by
        simp [dictInsert, hk]
      rw [hins] at h
      cases he : e.2.container_id with
      | none =>
        rw [cIds_cons_none he] at h
        rcases ih h with h1 | h1
        · left; rw [cIds_cons_none he]; exact h1
        · exact Or.inr h1
      | some d =>
        rw [cIds_cons_some he] at h
        rcases List.mem_cons.mp h with rfl | hmem
        · left; rw [cIds_cons_some he]; exact List.mem_cons_self _ _
        · rcases ih hmem with h1 | h1
          · left; rw [cIds_cons_some he]; exact List.mem_cons_of_mem _ h1
          · exact Or.inr h1

theorem lookup_some_mem_cIds {m : List (String × GFilesystem)} {k : String}
    {v : GFilesystem} {c : String} (h : dictLookup k m = some v)
    (hc : v.container_id = some c) : c ∈ cIds m := by
  induction m with
  | nil => exact absurd h (by simp [dictLookup])
  | cons e t ih =>
    by_cases hk : e.1 = k
    · have hv2 : e.2 = v := by simpa [dictLookup, hk] using h
      have he : e.2.container_id = some c := by rw [hv2]; exact hc
      rw [cIds_cons_some he]
      exact List.mem_cons_self _ _
    · have h' : dictLookup k t = some v := by simpa [dictLookup, hk] using h
      cases he : e.2.container_id with
      | none => rw [cIds_cons_none he]; exact ih h'
      | some d => rw [cIds_cons_some he]; exact List.mem_cons_of_mem _ (ih h')

theorem dictInsert_lookup_self {m : List (String × GFilesystem)} {k : String}
    {v : GFilesystem} (h : dictLookup k m = some v) : dictInsert k v m = m := by
  induction m with
  | nil => exact absurd h (by simp [dictLookup])
  | cons e t ih =>
    obtain ⟨e1, e2⟩ := e
    by_cases hk : e1 = k
    · have hv2 : e2 = v := by simpa [dictLookup, hk] using h
      simp [dictInsert, hk, hv2]
    · have h' : dictLookup k t = some v := by simpa [dictLookup, hk] using h
      simp [dictInsert, hk, ih h']

theorem cIds_dictRemove_sublist (k : String) (m : List (String × GFilesystem)) :
    List.Sublist (cIds (dictRemove k m)) (cIds m) := by
  induction m with
  | nil => simp [dictRemove]
  | cons e t ih =>
    by_cases hk : e.1 = k
    · have hr : dictRemove k (e :: t) = t := by simp [dictRemove, hk]
      rw [hr]
      cases he : e.2.container_id with
      | none => rw [cIds_cons_none he]
      | some d => rw [cIds_cons_some he]; exact List.sublist_cons_self _ _
    · have hr : dictRemove k (e :: t) = e :: dictRemove k t := by simp [dictRemove, hk]
      rw [hr]
      cases he : e.2.container_id with
      | none => rw [cIds_cons_none he, cIds_cons_none he]; exact ih
      | some d => rw [cIds_cons_some he, cIds_cons_some he]; exact List.Sublist.cons₂ _ ih

theorem nodup_cIds_dictInsert {m : List (String × GFilesystem)} {k : String}
    {v : GFilesystem} (h : (cIds m).Nodup)
    (hv : ∀ c, v.container_id = some c → c ∉ cIds m) :
    (cIds (dictInsert k v m)).Nodup := by
  induction m with
  | nil =>
    rw [show dictInsert k v [] = [(k, v)] from rfl]
    cases hc : v.container_id with
    | none => rw [cIds_cons_none hc, cIds_nil]; exact List.nodup_nil
    | some c => rw [cIds_cons_some hc, cIds_nil]; exact List.nodup_singleton c
  | cons e t ih =>
    by_cases hk : e.1 = k
    · have hins : dictInsert k v (e :: t) = (e.1, v) :: t := by simp [dictInsert, hk]
      rw [hins]
      have htail : (cIds t).Nodup := by
        cases he : e.2.container_id with
        | none => rw [cIds_cons_none he] at h; exact h
        | some d => rw [cIds_cons_some he] at h; exact h.of_cons
      cases hc : v.container_id with
      | none => rw [cIds_cons_none hc]; exact htail
      | some c =>
        rw [cIds_cons_some hc]
        refine List.nodup_cons.mpr ⟨?_, htail⟩
        intro hmem
        refine hv c hc ?_
        cases he : e.2.container_id with
        | none => rw [cIds_cons_none he]; exact hmem
        | some d => rw [cIds_cons_some he]; exact List.mem_cons_of_mem _ hmem
    · have hins : dictInsert k v (e :: t) = e :: dictInsert k v t := by
        simp [dictInsert, hk]
      rw [hins]
      cases he : e.2.container_id with
      | none =>
        rw [cIds_cons_none he]
        rw [cIds_cons_none he] at h
        refine ih h (fun c hc => ?_)
        have := hv c hc
        rw [cIds_cons_none he] at this
        exact this
      | some d =>
        rw [cIds_cons_some he]
        rw [cIds_cons_some he] at h
        have h1 := List.nodup_cons.mp h
        refine List.nodup_cons.mpr ⟨?_, ih h1.2 (fun c hc => ?_)⟩
        · intro hd
          rcases mem_cIds_dictInsert hd with hmem | hsome
          · exact h1.1 hmem
          · exact hv d hsome (by rw [cIds_cons_some he]; exact List.mem_cons_self _ _)
        · have := hv c hc
          rw [cIds_cons_some he] at this
          exact fun hm => this (List.mem_cons_of_mem _ hm)

theorem dictLookup_mem {m : List (String × α)} {k : String} {v : α}
    (h : dictLookup k m = some v) : (k, v) ∈ m := by
  induction m with
  | nil => exact absurd h (by simp [dictLookup])
  | cons e t ih =>
    obtain ⟨e1, e2⟩ := e
    by_cases hk : e1 = k
    · have hv2 : e2 = v := by simpa [dictLookup, hk] using h
      subst hk; subst hv2
      exact List.mem_cons_self _ _
    · have h' : dictLookup k t = some v := by simpa [dictLookup, hk] using h
      exact List.mem_cons_of_mem _ (ih h')

theorem dictRemove_sublist (k : String) (m : List (String × α)) :
    List.Sublist (dictRemove k m) m := by
  induction m with
  | nil => simp [dictRemove]
  | cons e t ih =>
    by_cases hk : e.1 = k
    · rw [show dictRemove k (e :: t) = t by simp [dictRemove, hk]]
      exact List.sublist_cons_self _ _
    · rw [show dictRemove k (e :: t) = e :: dictRemove k t by simp [dictRemove, hk]]
      exact List.Sublist.cons₂ _ ih

theorem wk_dictInsert {m : List (String × GFilesystem)} {k : String}
    {v : GFilesystem} (h : ∀ e ∈ m, GFilesystem.id e.2 = e.1) (hv : v.id = k) :
    ∀ e ∈ dictInsert k v m, GFilesystem.id e.2 = e.1 := by
  induction m with
  | nil =>
    intro e he
    rw [show dictInsert k v [] = [(k, v)] from rfl] at he
    have : e = (k, v) := by simpa using he
    subst this
    exact hv
  | cons e0 t ih =>
    intro e he
    by_cases hk : e0.1 = k
    · rw [show dictInsert k v (e0 :: t) = (e0.1, v) :: t by simp [dictInsert, hk]] at he
      rcases List.mem_cons.mp he with rfl | hmem
      · simpa [hk] using hv
      · exact h e (List.mem_cons_of_mem _ hmem)
    · rw [show dictInsert k v (e0 :: t) = e0 :: dictInsert k v t by simp [dictInsert, hk]] at he
      rcases List.mem_cons.mp he with rfl | hmem
      · exact h e (List.mem_cons_self _ _)
      · exact ih (fun e' he' => h e' (List.mem_cons_of_mem _ he')) e hmem

theorem get_by_container_mem {st : DriverState} {c : String} {fs : GFilesystem}
    (h : Driver.get_filesystem_by_container_id st c = some fs) :
    ∃ k, (k, fs) ∈ st.filesystems ∧ fs.container_id = some c := by
  have : ∀ m : List (String × GFilesystem),
      Driver.get_filesystem_by_container_id.go c m = some fs →
      ∃ k, (k, fs) ∈ m ∧ fs.container_id = some c := by
    intro m
    induction m with
    | nil => intro h0; exact absurd h0 (by simp [Driver.get_filesystem_by_container_id.go])
    | cons e t ih =>
      intro h0
      by_cases hc : e.2.container_id = some c
      · have : e.2 = fs := by
          simpa [Driver.get_filesystem_by_container_id.go, hc] using h0
        subst this
        exact ⟨e.1, List.mem_cons_self _ _, hc⟩
      · have h' : Driver.get_filesystem_by_container_id.go c t = some fs := by
          simpa [Driver.get_filesystem_by_container_id.go, hc] using h0
        obtain ⟨k, hk, hfc⟩ := ih h'
        exact ⟨k, List.mem_cons_of_mem _ hk, hfc⟩
  exact this st.filesystems h

theorem remove_filesystem_preserves {st : DriverState} (fid : String)
    (hw : WellKeyed st) (hu : MountUnique st) :
    WellKeyed (Driver.remove_filesystem st fid).1 ∧
      MountUnique (Driver.remove_filesystem st fid).1 := by
  unfold Driver.remove_filesystem
  cases hl : dictLookup fid st.filesystems with
  | none => exact ⟨hw, hu⟩
  | some fs =>
    by_cases hb : (fs.is_mounted || (Driver.get_child_layer st fs).isSome) = true
    · simp only [hb, if_true]
      exact ⟨hw, hu⟩
    · simp only [hb, if_false]
      constructor
      · intro e he
        exact hw e ((dictRemove_sublist fid st.filesystems).subset he)
      · exact List.Nodup.sublist (cIds_dictRemove_sublist fid st.filesystems) hu

theorem create_filesystem_preserves (st : DriverState) (new_id : String)
    (l : Option String) (hw : WellKeyed st) (hu : MountUnique st) :
    WellKeyed (Driver.create_filesystem st new_id l).1 ∧
      MountUnique (Driver.create_filesystem st new_id l).1 := by
  unfold Driver.create_filesystem
  have hins :
      WellKeyed
          { st with filesystems := dictInsert new_id ⟨new_id, l, none⟩ st.filesystems } ∧
        MountUnique
          { st with filesystems := dictInsert new_id ⟨new_id, l, none⟩ st.filesystems } :=
    ⟨wk_dictInsert hw rfl, nodup_cIds_dictInsert hu (fun c hc => absurd hc (by simp))⟩
  cases l with
  | none => exact hins
  | some lid =>
    by_cases hc : (!(dictContains lid st.layers)) = true
    · simp only [hc, if_true]
      exact ⟨hw, hu⟩
    · simp only [hc, if_false]
      exact hins

theorem mount_filesystem_preserves (st : DriverState) (fsid cid : String)
    (hw : WellKeyed st) (hu : MountUnique st) (hf : cid ∉ st.containerIds) :
    WellKeyed (Driver.mount_filesystem st fsid cid).1 ∧
      MountUnique (Driver.mount_filesystem st fsid cid).1 := by
  cases hl : dictLookup fsid st.filesystems with
  | none =>
    have hshow : Driver.mount_filesystem st fsid cid = (st, some PyErr.filesystemUnknown) := by
      unfold Driver.mount_filesystem
      rw [hl]
    rw [hshow]
    exact ⟨hw, hu⟩
  | some fs =>
    have hshow : Driver.mount_filesystem st fsid cid =
        ({ st with filesystems := dictInsert fsid (Filesystem.mount fs cid).1 st.filesystems },
          (Filesystem.mount fs cid).2) := by
      unfold Driver.mount_filesystem
      rw [hl]
    rw [hshow]
    cases hfc : fs.container_id with
    | some c1 =>
      have hm1 : (Filesystem.mount fs cid).1 = fs := by
        unfold Filesystem.mount
        rw [hfc]
        by_cases he : c1 = cid <;> simp [he]
      rw [hm1, dictInsert_lookup_self hl]
      exact ⟨hw, hu⟩
    | none =>
      have hm1 : (Filesystem.mount fs cid).1 = ⟨fs.id, fs.layer, some cid⟩ := by
        unfold Filesystem.mount
        rw [hfc]
      have hid : fs.id = fsid := hw _ (dictLookup_mem hl)
      rw [hm1]
      refine ⟨wk_dictInsert hw hid, nodup_cIds_dictInsert hu (fun c hc => ?_)⟩
      have : c = cid := by simpa using hc.symm
      subst this
      exact hf

theorem unmount_filesystem_preserves (st : DriverState) (cid : String)
    (remove : Bool) (hw : WellKeyed st) (hu : MountUnique st) :
    WellKeyed (Driver.unmount_filesystem st cid remove).1 ∧
      MountUnique (Driver.unmount_filesystem st cid remove).1 := by
  unfold Driver.unmount_filesystem
  cases hg : Driver.get_filesystem_by_container_id st cid with
  | none => exact ⟨hw, hu⟩
  | some fs =>
    have hw1 :
        WellKeyed
          { st with filesystems :=
              dictInsert fs.id ⟨fs.id, fs.layer, none⟩ st.filesystems } :=
      wk_dictInsert hw rfl
    have hu1 :
        MountUnique
          { st with filesystems :=
              dictInsert fs.id ⟨fs.id, fs.layer, none⟩ st.filesystems } :=
      nodup_cIds_dictInsert hu (fun c hc => absurd hc (by simp))
    cases remove with
    | true => exact remove_filesystem_preserves _ hw1 hu1
    | false => exact ⟨hw1, hu1⟩

theorem create_layer_preserves (st : DriverState) (fsid bid : String) (bsz : Int)
    (hw : WellKeyed st) (hu : MountUnique st) :
    WellKeyed (Driver.create_layer st fsid bid bsz).1 ∧
      MountUnique (Driver.create_layer st fsid bid bsz).1 := by
  cases hl : dictLookup fsid st.filesystems with
  | none =>
    have hshow : Driver.create_layer st fsid bid bsz = (st, some PyErr.filesystemUnknown) := by
      unfold Driver.create_layer
      rw [hl]
    rw [hshow]
    exact ⟨hw, hu⟩
  | some fs =>
    have hid : fs.id = fsid := hw _ (dictLookup_mem hl)
    have hself : dictInsert fs.id fs st.filesystems = st.filesystems := by
      rw [hid]
      exact dictInsert_lookup_self hl
    have hfs : (Driver.create_layer st fsid bid bsz).1.filesystems = st.filesystems := by
      unfold Driver.create_layer
      rw [hl]
      show dictInsert fs.id fs st.filesystems = st.filesystems
      exact hself
    constructor
    · intro e he
      rw [hfs] at he
      exact hw e he
    · unfold MountUnique DriverState.containerIds
      rw [hfs]
      exact hu

theorem remove_layer_preserves (st : DriverState) (lid : String)
    (hw : WellKeyed st) (hu : MountUnique st) :
    WellKeyed (Driver.remove_layer st lid).1 ∧
      MountUnique (Driver.remove_layer st lid).1 := by
  unfold Driver.remove_layer
  cases hl : dictLookup lid st.layers with
  | none => exact ⟨hw, hu⟩
  | some layer =>
    by_cases h1 : layer.images.length > 0
    · simp only [if_pos h1]
      exact ⟨hw, hu⟩
    · simp only [if_neg h1]
      by_cases h2 : (Driver.get_child_filesystems st layer).length > 0
      · simp only [if_pos h2]
        exact ⟨hw, hu⟩
      · simp only [if_neg h2]
        exact remove_filesystem_preserves layer.filesystem (hw : WellKeyed st) (hu : MountUnique st)

theorem applyOp_preserves {st : DriverState} (op : DriverOp)
    (hw : WellKeyed st) (hu : MountUnique st) (hf : mountOpFresh st op) :
    WellKeyed (Driver.applyOp st op).1 ∧ MountUnique (Driver.applyOp st op).1 := by
  cases op with
  | create_filesystem new_id l => exact create_filesystem_preserves st new_id l hw hu
  | mount_filesystem fsid cid p => exact mount_filesystem_preserves st fsid cid hw hu hf
  | unmount_filesystem cid remove => exact unmount_filesystem_preserves st cid remove hw hu
  | remove_filesystem fid => exact remove_filesystem_preserves fid hw hu
  | create_layer fsid bid bsz => exact create_layer_preserves st fsid bid bsz hw hu
  | remove_layer lid => exact remove_layer_preserves st lid hw hu

theorem runOps_preserves {st : DriverState} {ops : List DriverOp}
    (hw : WellKeyed st) (hu : MountUnique st) (hf : MountsFresh st ops) :
    WellKeyed (Driver.runOps st ops) ∧ MountUnique (Driver.runOps st ops) := by
  induction hf with
  | nil st => exact ⟨hw, hu⟩
  | cons st op ops hop hrest ih =>
    obtain ⟨hw1, hu1⟩ := applyOp_preserves op hw hu hop
    exact ih hw1 hu1

theorem splitCharAux_no_sep {sep : Char} {l acc : List Char}
    (h : ∀ c ∈ l, c ≠ sep) : splitCharAux sep l acc = [acc.reverse ++ l] := by
  induction l generalizing acc with
  | nil => simp [splitCharAux]
  | cons c t ih =>
    have hc : c ≠ sep := h c (List.mem_cons_self c t)
    rw [show splitCharAux sep (c :: t) acc = splitCharAux sep t (c :: acc) by
      simp [splitCharAux, hc]]
    rw [ih (fun x hx => h x (List.mem_cons_of_mem _ hx))]
    simp

theorem digest_to_id_round (h : String) (hc : ∀ c ∈ h.data, c ≠ ':') :
    digest_to_id (id_to_digest h) = h := by
  unfold id_to_digest digest_to_id splitColon splitChar
  have hdata : ("sha256:" ++ h).data
      = 's' :: 'h' :: 'a' :: '2' :: '5' :: '6' :: ':' :: h.data := rfl
  rw [hdata]
  rw [show splitCharAux ':' ('s' :: 'h' :: 'a' :: '2' :: '5' :: '6' :: ':' :: h.data) []
      = ['s','h','a','2','5','6'] :: splitCharAux ':' h.data [] by
    simp [splitCharAux]]
  rw [splitCharAux_no_sep hc]
  simp [List.asString]


/-- Digits are not whitespace, so `int()` never strips them. -/
theorem digit_not_ws {c : Char} (h : c.isDigit = true) : c.isWhitespace = false := by
  by_contra hw
  rw [Bool.not_eq_false] at hw
  simp [Char.isWhitespace] at hw
  simp [Char.isDigit] at h
  obtain ⟨h1, h2⟩ := h
  rcases hw with ((hc | hc) | hc) | hc <;> subst hc <;> revert h1 h2 <;> decide

/-- Dropping by a predicate no element satisfies changes nothing. -/
theorem dropWhile_eq_self_of {p : Char → Bool} {l : List Char}
    (h : ∀ c ∈ l, p c = false) : l.dropWhile p = l := by
  cases l with
  | nil => rfl
  | cons c t =>
    rw [List.dropWhile_cons, h c (List.mem_cons_self c t)]
    simp

/-- Whitespace stripping is the identity on whitespace-free text. -/
theorem stripSpaces_eq_self {l : List Char} (h : ∀ c ∈ l, c.isWhitespace = false) :
    stripSpaces l = l := by
  unfold stripSpaces
  rw [dropWhile_eq_self_of h]
  rw [dropWhile_eq_self_of (fun c hc => h c (List.mem_reverse.mp hc))]
  exact List.reverse_reverse l

/-- A digitpart tail absorbs a leading digit. -/
theorem pyDigitTail_cons_digit (c : Char) (t : List Char) (hc : c.isDigit = true) :
    pyDigitTail (c :: t) = pyDigitTail t := by
  cases t with
  | nil => simp [pyDigitTail, hc]
  | cons d r => simp [pyDigitTail, hc]

/-- Digit-only text is a valid digitpart tail. -/
theorem pyDigitTail_of_digits {l : List Char} (h : ∀ c ∈ l, c.isDigit = true) :
    pyDigitTail l = true := by
  induction l with
  | nil => rfl
  | cons c t ih =>
    rw [pyDigitTail_cons_digit c t (h c (List.mem_cons_self c t))]
    exact ih (fun x hx => h x (List.mem_cons_of_mem _ hx))

/-- Python `int()` accepts a nonempty digit-only string and returns its value. -/
theorem pyInt_of_digits {v : String} (hne : v.data ≠ [])
    (hd : ∀ c ∈ v.data, c.isDigit = true) :
    pyInt v = some (digitsVal v.data) := by
  unfold pyInt
  rw [stripSpaces_eq_self (fun c hc => digit_not_ws (hd c hc))]
  cases hv : v.data with
  | nil => exact absurd hv hne
  | cons c rest =>
    have hc : c.isDigit = true := hd c (by rw [hv]; exact List.mem_cons_self c rest)
    have hplus : ¬(c = '+') := fun hcc => by subst hcc; revert hc; decide
    have hminus : ¬(c = '-') := fun hcc => by subst hcc; revert hc; decide
    have hpart : pyDigitpart (c :: rest) = true := by
      rw [show pyDigitpart (c :: rest) = (c.isDigit && pyDigitTail rest) from rfl]
      rw [hc, pyDigitTail_of_digits
        (fun x hx => hd x (by rw [hv]; exact List.mem_cons_of_mem _ hx))]
      rfl
    simp [hplus, hminus, hpart]

/-- Whatever `Driver.remove_filesystem` raises, it is never `LayerInUse`. -/
theorem remove_filesystem_err_ne (s : DriverState) (fid : String) :
    (Driver.remove_filesystem s fid).2 ≠ some PyErr.layerInUse := by
  unfold Driver.remove_filesystem
  cases hl : dictLookup fid s.filesystems with
  | none => simp
  | some fs =>
    by_cases hb : (fs.is_mounted || (Driver.get_child_layer s fs).isSome) = true
    · simp only [hb, if_true]
      simp
    · simp only [hb, if_false]
      simp

/-- Removal of a registered, unmounted, childless filesystem succeeds and
just deletes the map entry. -/
theorem remove_filesystem_success {s : DriverState} {fid : String} {fs : GFilesystem}
    (hfs : dictLookup fid s.filesystems = some fs) (hm : fs.container_id = none)
    (hcl : Driver.get_child_layer s fs = none) :
    Driver.remove_filesystem s fid =
      ({ s with filesystems := dictRemove fid s.filesystems }, none) := by
  unfold Driver.remove_filesystem
  rw [hfs]
  show (if (fs.is_mounted || (Driver.get_child_layer s fs).isSome) = true
      then (s, some PyErr.filesystemInUse)
      else ({ s with filesystems := dictRemove fid s.filesystems }, none)) = _
  rw [show fs.is_mounted = false by simp [GFilesystem.is_mounted, hm], hcl]
  simp

/-! ## Claim theorems -/

/-- Claim C1 (code_bug): persistence is *not* a round-trip.  On the state
`stC1` — one filesystem committed into one layer — `Driver.save` raises
`TypeError` (the dict passed to `json.dump` holds the bound method
`layer.size`, because graph/layer.py defines `size` as a method), and
`Driver.load` on a well-formed document of the specified format raises
`TypeError` (driver.py line 88 calls `Layer` with five positional arguments
while the constructor takes three).  The serialised layer record also carries
`diff_id = null`, since the `Layer.diff_id` property has no return statement.
So `load(save(state))` never even returns for a state with a layer. -/
theorem claim_C1_roundtrip :
    Driver.save cfgZfs stC1 = Except.error PyErr.typeError ∧
    Driver.load cfgZfs docC1 = Except.error PyErr.typeError ∧
    Driver.layer_to_json (Driver.saveFuel stC1) stC1 layC1 =
      Json.obj
        [("descriptor", Json.obj
           [("mediaType", Json.str MediaTypeImageLayerGzip),
            ("digest", Json.str "sha256:b1f2"),
            ("size", Json.num 5)]),
         ("diff_id", Json.null),
         ("size", Json.pymethod "Layer.size")] := by
  refine ⟨rfl, rfl, rfl⟩

/-- Claim C2 (code_bug): for every layer built by `Layer.create` from a
committed filesystem, the `id` accessor does equal the SHA-256 of the
compressed blob, but the `diff_id` accessor returns `None` — not the SHA-256
of the uncompressed changeset — because the property body lacks a `return`;
moreover the filesystem keeps its random id (the hash computed by
`ZFSFilesystem.commit` is discarded by the caller), so even the underlying
field never holds the changeset hash. -/
theorem claim_C2_layer_ids (sha256sum : List Nat → String)
    (compressTool : List Nat → List Nat) (fs : GFilesystem) (changeset : List Nat)
    (hhex : ∀ c ∈ (sha256sum (compressTool changeset)).data, c ≠ ':') :
    GLayer.id (Layer.create sha256sum compressTool fs changeset).1
        = sha256sum (compressTool changeset) ∧
    GLayer.diff_id (Layer.create sha256sum compressTool fs changeset).1 = none ∧
    (Layer.create sha256sum compressTool fs changeset).2.id = fs.id := by
  refine ⟨?_, rfl, rfl⟩
  show digest_to_id (id_to_digest (sha256sum (compressTool changeset)))
      = sha256sum (compressTool changeset)
  exact digest_to_id_round _ hhex

/-- Witness for claim C2 at a concrete hash, compressor and changeset. -/
theorem claim_C2_witness :
    ("ab12fe".data.contains ':') = false ∧
    GLayer.id (Layer.create (fun _ => "ab12fe") (fun l => l)
      ⟨"f77", none, none⟩ [3, 1]).1 = "ab12fe" ∧
    GLayer.diff_id (Layer.create (fun _ => "ab12fe") (fun l => l)
      ⟨"f77", none, none⟩ [3, 1]).1 = none ∧
    (Layer.create (fun _ => "ab12fe") (fun l => l) ⟨"f77", none, none⟩ [3, 1]).2.id
      = "f77" := by
  have h := claim_C2_layer_ids (fun _ => "ab12fe") (fun l => l)
    ⟨"f77", none, none⟩ [3, 1] (by decide)
  exact ⟨by decide, h.1, h.2.1, h.2.2⟩

/-- Claim C3, amended: for a registered layer, `remove_layer` raises
`LayerInUse` exactly when `layer.images` is non-empty or some filesystem has
the layer as parent — that part of the claim holds.  The "otherwise it
succeeds" part must be qualified: removal succeeds (deleting the layer and
its backing filesystem) only when the backing filesystem is also registered,
unmounted and not backing another layer; when the backing filesystem is
mounted, the call fails with `FilesystemInUse` after the layer is already
deleted from the map. -/
theorem claim_C3_remove_layer (st : DriverState) (lid : String) (l : GLayer)
    (hreg : dictLookup lid st.layers = some l) :
    ((Driver.remove_layer st lid).2 = some PyErr.layerInUse ↔
      (l.images ≠ [] ∨ Driver.get_child_filesystems st l ≠ [])) ∧
    (∀ fs : GFilesystem,
      l.images = [] →
      Driver.get_child_filesystems st l = [] →
      dictLookup l.filesystem st.filesystems = some fs →
      fs.container_id = none →
      Driver.get_child_layer { st with layers := dictRemove lid st.layers } fs = none →
      Driver.remove_layer st lid =
        ({ filesystems := dictRemove l.filesystem st.filesystems,
           layers := dictRemove lid st.layers }, none)) := by
  have hshow : Driver.remove_layer st lid =
      (if l.images.length > 0 then (st, some PyErr.layerInUse)
       else if (Driver.get_child_filesystems st l).length > 0 then (st, some PyErr.layerInUse)
       else Driver.remove_filesystem { st with layers := dictRemove lid st.layers }
         l.filesystem) := by
    unfold Driver.remove_layer
    rw [hreg]
  constructor
  · rw [hshow]
    by_cases h1 : l.images.length > 0
    · simp only [if_pos h1]
      exact ⟨fun _ => Or.inl (List.length_pos.mp h1), fun _ => by trivial⟩
    · simp only [if_neg h1]
      have himg : l.images = [] := by
        cases hi : l.images with
        | nil => rfl
        | cons a b => exact absurd (by simp [hi]) h1
      by_cases h2 : (Driver.get_child_filesystems st l).length > 0
      · simp only [if_pos h2]
        exact ⟨fun _ => Or.inr (List.length_pos.mp h2), fun _ => by trivial⟩
      · simp only [if_neg h2]
        have hch : Driver.get_child_filesystems st l = [] := by
          cases hi : Driver.get_child_filesystems st l with
          | nil => rfl
          | cons a b => exact absurd (by simp [hi]) h2
        constructor
        · intro habs
          exact absurd habs (remove_filesystem_err_ne _ _)
        · intro hor
          rcases hor with h | h
          · exact absurd himg h
          · exact absurd hch h
  · intro fs himg hch hfs hcont hnochild
    rw [hshow]
    rw [if_neg (by simp [himg]), if_neg (by simp [hch])]
    exact remove_filesystem_success hfs hcont hnochild

/-- Counterexample to claim C3 as stated: in `stC3` the layer has no image
references and no child filesystems, yet `remove_layer` does *not* succeed —
the backing filesystem is mounted, so the call raises `FilesystemInUse`,
leaving the filesystem registered while the layer is already gone. -/
theorem claim_C3_counterexample :
    dictLookup "l1aa" stC3.layers = some layC3 ∧
    layC3.images = [] ∧
    Driver.get_child_filesystems stC3 layC3 = [] ∧
    Driver.remove_layer stC3 "l1aa" =
      ({ filesystems := stC3.filesystems, layers := [] }, some PyErr.filesystemInUse) := by
  refine ⟨rfl, rfl, rfl, rfl⟩

/-- Witness for claim C3 at a concrete removable layer. -/
theorem claim_C3_witness :
    dictLookup "l2aa" stW3.layers = some layW3 ∧
    ((Driver.remove_layer stW3 "l2aa").2 = some PyErr.layerInUse ↔ False) ∧
    Driver.remove_layer stW3 "l2aa" = (⟨[], []⟩, none) := by
  have h := claim_C3_remove_layer stW3 "l2aa" layW3 rfl
  refine ⟨rfl, ?_, ?_⟩
  · rw [h.1]
    simp only [iff_false]
    push_neg
    exact ⟨rfl, rfl⟩
  · exact h.2 ⟨"f2", none, none⟩ rfl rfl rfl rfl rfl

/-- Claim C4 (code_bug): `Distribution.remove_image` never reaches the
reverse-order layer walk the claim describes.  `class Image` defines no
`destroy` method, so for an image that carries its id the call raises
`AttributeError`; and for an image built by `Distribution.load` — whose `id`
attribute is `None` because the id was bound to the `repository` parameter —
it raises `ImageUnknown` even earlier.  The image is never deleted from the
registry and nothing is persisted. -/
theorem claim_C4_remove_image :
    Image.hasAttr "destroy" = false ∧
    Distribution.remove_image distC4 (DistImage.loaded kC4 ["busybox:latest"])
      = Except.error PyErr.imageUnknown ∧
    Distribution.remove_image distC4 ⟨kC4, ["busybox:latest"], some kC4⟩
      = Except.error (PyErr.attributeError "destroy") := by
  refine ⟨rfl, rfl, rfl⟩

/-- Counterexample to claim C5 as stated: after the four driver calls of
`opsC5` — two creates and two mounts reusing container id `c7` — two
registered filesystems carry `container_id = c7`, so per-container mount
uniqueness is not an invariant of the driver. -/
theorem claim_C5_counterexample :
    ((Driver.runOps DriverState.empty opsC5).containerIds.count "c7") = 2 ∧
    ¬ MountUnique (Driver.runOps DriverState.empty opsC5) := by
  constructor
  · rfl
  · unfold MountUnique
    decide

/-- Claim C5, amended: the driver itself never checks whether a container id
is already bound to another filesystem, so the uniqueness invariant holds only
for call sequences in which every `mount_filesystem` uses a container id not
currently assigned to any filesystem (as the runtime does, with fresh random
ids).  Under that discipline, every sequence of driver operations starting
from the empty state preserves per-container mount uniqueness. -/
theorem claim_C5_mount_uniqueness (ops : List DriverOp)
    (hf : MountsFresh DriverState.empty ops) :
    MountUnique (Driver.runOps DriverState.empty ops) :=
  (runOps_preserves (fun e he => absurd he (List.not_mem_nil e))
    (show MountUnique DriverState.empty from List.nodup_nil) hf).2

/-- Witness for claim C5 on a concrete fresh-mount call sequence. -/
theorem claim_C5_witness :
    MountsFresh DriverState.empty wopsC5 ∧
      MountUnique (Driver.runOps DriverState.empty wopsC5) := by
  have hf : MountsFresh DriverState.empty wopsC5 :=
    MountsFresh.cons _ _ _ (by decide)
      (MountsFresh.cons _ _ _ (by decide)
        (MountsFresh.cons _ _ _ (by decide)
          (MountsFresh.cons _ _ _ (by decide)
            (MountsFresh.cons _ _ _ (by decide)
              (MountsFresh.nil _)))))
  exact ⟨hf, claim_C5_mount_uniqueness wopsC5 hf⟩

/-- Claim C6 (code_bug): `Distribution.add_tag` can never reassign a tag,
because `class Image` defines neither a `tags` attribute nor `add_tag` or
`remove_tag` methods.  With a non-empty registry the tag search raises
`AttributeError` on `image.tags`; with an empty registry the call reaches
`image.add_tag` and raises `AttributeError` there.  No registry mutation or
persistence ever happens. -/
theorem claim_C6_add_tag :
    Image.hasAttr "tags" = false ∧
    Image.hasAttr "add_tag" = false ∧
    Image.hasAttr "remove_tag" = false ∧
    Distribution.add_tag distC6 (DistImage.loaded "k2" []) "x:latest"
      = Except.error (PyErr.attributeError "tags") ∧
    Distribution.add_tag [] (DistImage.loaded "k1" []) "x"
      = Except.error (PyErr.attributeError "add_tag") := by
  refine ⟨rfl, rfl, rfl, rfl, rfl⟩

/-- Claim C7 (code_bug): `Distribution.get_image` cannot resolve anything on
the registry `Distribution.load` builds.  Every loaded image has `id = None`
(the id was bound to the `repository` constructor parameter), so neither the
exact-id nor the short-id comparison ever matches — even for the exact id the
image is stored under — and the tag search then raises `AttributeError` on the
missing `tags` attribute instead of returning the image or `ImageUnknown`.
Only an empty registry yields `ImageUnknown`. -/
theorem claim_C7_get_image :
    (DistImage.loaded kC7 ["busybox:latest"]).id = none ∧
    Distribution.get_image_by_id distC7 kC7 = Except.error PyErr.imageUnknown ∧
    Distribution.get_image distC7 kC7 = Except.error (PyErr.attributeError "tags") ∧
    Distribution.get_image distC7 "0123456789ab" = Except.error (PyErr.attributeError "tags") ∧
    Distribution.get_image distC7 "busybox:latest" = Except.error (PyErr.attributeError "tags") ∧
    Distribution.get_image [] "busybox" = Except.error PyErr.imageUnknown := by
  refine ⟨rfl, rfl, rfl, rfl, rfl, rfl⟩

/-- Claim C8, amended: `value_convert` applies its checks in source order, so
the claim holds with these precedences — `-` maps to `None` and `on`/`off`
map to booleans *for every property*, including `mountpoint`; only otherwise
does the `mountpoint` property yield a path (even for a numeral string); and
only for other properties does a decimal numeral yield an integer. -/
theorem claim_C8_value_convert (p v : String) :
    (v = "-" → value_convert p v = PyVal.none) ∧
    (v = "on" → value_convert p v = PyVal.bool true) ∧
    (v = "off" → value_convert p v = PyVal.bool false) ∧
    (v ≠ "on" → v ≠ "off" → v ≠ "-" → p = "mountpoint" →
      value_convert p v = PyVal.path v) ∧
    (v ≠ "on" → v ≠ "off" → v ≠ "-" → p ≠ "mountpoint" → v.data ≠ [] →
      (∀ c ∈ v.data, c.isDigit = true) →
      value_convert p v = PyVal.int (digitsVal v.data)) := by
  refine ⟨?_, ?_, ?_, ?_, ?_⟩
  · intro h; subst h; rfl
  · intro h; subst h; rfl
  · intro h; subst h; rfl
  · intro h1 h2 h3 h4
    subst h4
    unfold value_convert
    rw [if_neg h1, if_neg h2, if_neg h3, if_pos rfl]
  · intro h1 h2 h3 h4 h5 h6
    unfold value_convert
    rw [if_neg h1, if_neg h2, if_neg h3, if_neg h4, pyInt_of_digits h5 h6]

/-- Counterexample to claim C8 as stated: for the `mountpoint` property a
decimal numeral is converted to a path, not to an integer, because the
property-name check precedes the `int(value)` attempt. -/
theorem claim_C8_counterexample :
    value_convert "mountpoint" "123" = PyVal.path "123" ∧
    PyVal.path "123" ≠ PyVal.int 123 := by
  exact ⟨rfl, by decide⟩

/-- Witness for claim C8 at concrete property names and raw values. -/
theorem claim_C8_witness :
    value_convert "quota" "42" = PyVal.int 42 ∧
    value_convert "mountpoint" "-" = PyVal.none := by
  constructor
  · exact (claim_C8_value_convert "quota" "42").2.2.2.2
      (by decide) (by decide) (by decide) (by decide) (by decide) (by decide)
  · exact (claim_C8_value_convert "mountpoint" "-").1 rfl

/-- Claim C9 (code_bug): `Container.start` invokes `runc start` for *every*
container in *every* state — also for a container whose state file reports
`running` — because the guard compares the `State` object itself (or `None`)
with the strings `created` and `stopped`, which is always false; and the guard
would `raise`, not start, had it ever matched.  So the invocation is not
restricted to the `created` and `stopped` states as the claim requires. -/
theorem claim_C9_start :
    (∀ c : PyContainer, Container.start c = Except.ok (RuncCall.start c.runc_id)) ∧
    Container.start
        ⟨some "4e7a", "4e7a1b2c3d4e",
         some ⟨"4e7a1b2c3d4e", "running", "/var/lib/oci/containers/4e7a"⟩⟩
      = Except.ok (RuncCall.start "4e7a1b2c3d4e") :=
  ⟨fun _ => rfl, rfl⟩

/-- Claim C10 (confirmed): the shipped `oci_config` has only the top-level
keys `global` and `graph`, so every graph entry point that reads the
top-level `driver` section — `Driver.load`, `Driver.save` (hence the
constructor, which calls one of them), and the `Filesystem` class lookup —
fails with an unhandled `KeyError`, for every driver state and every
driver.json document. -/
theorem claim_C10_missing_driver_key :
    Cfg.topKeys oci_config = ["global", "graph"] ∧
    Cfg.get oci_config "driver" = Except.error (PyErr.keyError "driver") ∧
    (∀ j : Json, Driver.load oci_config j = Except.error (PyErr.keyError "driver")) ∧
    (∀ st : DriverState, Driver.save oci_config st = Except.error (PyErr.keyError "driver")) ∧
    get_filesystem_class oci_config = Except.error (PyErr.keyError "driver") :=
  ⟨rfl, rfl, fun _ => rfl, fun _ => rfl, rfl⟩
